import Mathlib

/-!
Shallow embedding of the hybrid context-window manager
(`ConversationManager`, Part 5 of `17-context-window-management.py`).

Python dictionaries `{"role": r, "parts": [{"text": t}]}` are modelled by the
`Message` structure (the `parts` list is always a singleton in the source).
The hosted-model client (`client.models.generate_content`), a module-level
global in the source, is modelled by a `Services` record passed explicitly:
`primary` stands for the call made in `chat` (system instruction plus a list
of role-tagged messages) and `summarize` for the call made in `_compress`
(fixed summarization instruction plus a flat transcript string).  A Python
exception escaping a method is modelled by `Except`: the `error` payload
carries both the service error and the state of `self` at the moment the
exception escapes, since mutations already performed are not rolled back.
-/

structure Message where
  role : String
  text : String
deriving Repr, DecidableEq

structure Services (ε : Type) where
  primary : String → List Message → Except ε String
  summarize : String → Except ε String

structure ConversationManager where
  system_prompt : String
  max_recent_turns : Nat
  summarize_threshold : Nat
  full_history : List Message
  summary : Option String
  recent_turns : List Message
  turn_count : Nat
deriving Repr, DecidableEq

namespace ConversationManager

/-- `__init__`: straight-line field assignments, no validation of the
configuration values. -/
def init (system_prompt : String) (max_recent_turns : Nat := 3)
    (summarize_threshold : Nat := 6) : ConversationManager :=
  { system_prompt := system_prompt
    max_recent_turns := max_recent_turns
    summarize_threshold := summarize_threshold
    full_history := []
    summary := none
    recent_turns := []
    turn_count := 0 }

/-- Python slice `l[:-k]` (empty when `k = 0`, since `l[:-0]` is `l[:0]`). -/
def sliceDropLast (l : List Message) (k : Nat) : List Message :=
  if k = 0 then [] else l.take (l.length - k)

/-- Python slice `l[-k:]` (the whole list when `k = 0`, since `l[-0:]` is
`l[0:]`). -/
def sliceLast (l : List Message) (k : Nat) : List Message :=
  if k = 0 then l else l.drop (l.length - k)

/-- The transcript line rendered for one message inside `_compress` (and the
loop body of `summarize_history`): `"User: ..."` or `"Assistant: ..."`. -/
def renderLine (msg : Message) : String :=
  (if msg.role = "user" then "User" else "Assistant") ++ ": " ++ msg.text ++ "\n"

/-- The transcript accumulated by the `for msg in to_summarize` loop. -/
def renderMessages : List Message → String
  | [] => ""
  | msg :: rest => renderLine msg ++ renderMessages rest

/-- `to_summarize = self.recent_turns[:-keep_count]` in `_compress`. -/
def to_summarize (self : ConversationManager) : List Message :=
  sliceDropLast self.recent_turns (self.max_recent_turns * 2)

/-- `to_keep = self.recent_turns[-keep_count:]` in `_compress`. -/
def to_keep (self : ConversationManager) : List Message :=
  sliceLast self.recent_turns (self.max_recent_turns * 2)

/-- The `conversation_text` string `_compress` hands to the summarization
call: the `"Previous summary: ..."` prefix when the Python truthiness test
`if self.summary:` passes (both a `None` and an empty-string summary are
falsy and add no prefix), followed by one rendered line per message of
`to_summarize`. -/
def conversation_text (self : ConversationManager) : String :=
  (match self.summary with
    | some s => if s = "" then "" else "Previous summary: " ++ s ++ "\n\n"
    | none => "") ++ renderMessages (to_summarize self)

/-- `_compress`: split `recent_turns`, render the transcript, delegate to the
summarization call, and only on success overwrite `summary` and truncate
`recent_turns`.  The service call precedes every assignment to `self`, so a
failing call leaves the state exactly as received; the `error` payload
carries that unchanged state. -/
def _compress {ε : Type} (svc : Services ε) (self : ConversationManager) :
    Except (ε × ConversationManager) ConversationManager :=
  match svc.summarize (conversation_text self) with
  | Except.error e => Except.error (e, self)
  | Except.ok response_text =>
      Except.ok { self with
        summary := some response_text.trim
        recent_turns := to_keep self }

/-- The first five statements of `add_turn`: append the pair to
`full_history` and to `recent_turns`, increment `turn_count`. -/
def appendTurn (self : ConversationManager) (user_message model_response : String) :
    ConversationManager :=
  { self with
    full_history := self.full_history
      ++ [⟨"user", user_message⟩, ⟨"model", model_response⟩]
    recent_turns := self.recent_turns
      ++ [⟨"user", user_message⟩, ⟨"model", model_response⟩]
    turn_count := self.turn_count + 1 }

/-- `add_turn`: record the pair, then
`if len(self.recent_turns) // 2 > self.summarize_threshold: self._compress()`.
A failure inside `_compress` escapes with the post-append state, since the
appends are not rolled back. -/
def add_turn {ε : Type} (svc : Services ε) (self : ConversationManager)
    (user_message model_response : String) :
    Except (ε × ConversationManager) ConversationManager :=
  let self1 := appendTurn self user_message model_response
  if self1.recent_turns.length / 2 > self1.summarize_threshold then
    _compress svc self1
  else
    Except.ok self1

/-- `build_context`: a local `context` list is built up; `self` is only read,
never written, and the module-level client is never referenced, so the method
returns the assembled list together with the untouched state.  The guard on
the synthetic summary pair is the Python truthiness test `if self.summary:`,
which fails for a `None` and for an empty-string summary alike. -/
def build_context (self : ConversationManager) (new_message : String) :
    List Message × ConversationManager :=
  let context : List Message := []
  let context := match self.summary with
    | some s =>
        if s = "" then context
        else context ++
          [⟨"user", "[Conversation summary so far: " ++ s ++ "]"⟩,
           ⟨"model", "I recall our previous discussion. How can I help?"⟩]
    | none => context
  let context := context ++ self.recent_turns
  let context := context ++ [⟨"user", new_message⟩]
  (context, self)

/-- `chat`: build the context, delegate to the primary completion call, and
only on success strip the reply and run `add_turn`.  A failing primary call
escapes before `add_turn`, leaving the state untouched. -/
def chat {ε : Type} (svc : Services ε) (self : ConversationManager)
    (user_message : String) :
    Except (ε × ConversationManager) (String × ConversationManager) :=
  let context := (build_context self user_message).1
  let self0 := (build_context self user_message).2
  match svc.primary self0.system_prompt context with
  | Except.error e => Except.error (e, self0)
  | Except.ok response_text =>
      let model_text := response_text.trim
      match add_turn svc self0 user_message model_text with
      | Except.error e => Except.error e
      | Except.ok self1 => Except.ok (model_text, self1)

/-- The state of `self` when a method returns or when an exception escapes it. -/
def stateOf {α : Type} : Except (α × ConversationManager) ConversationManager →
    ConversationManager
  | Except.ok s => s
  | Except.error (_, s) => s

/-- The state of `self` when `chat` returns or when an exception escapes it. -/
def chat_state {α : Type} :
    Except (α × ConversationManager) (String × ConversationManager) →
    ConversationManager
  | Except.ok (_, s) => s
  | Except.error (_, s) => s

/-- `build_context` with the module-level client in scope, the way every
method of the class runs in the source.  The body of `build_context` never
references the client, which the embedding records by ignoring the
`Services` argument. -/
def build_context_amb {ε : Type} (_svc : Services ε) (self : ConversationManager)
    (new_message : String) : List Message × ConversationManager :=
  build_context self new_message

/-- The two synthetic messages `build_context` emits when its truthiness
guard `if self.summary:` passes — nothing for a `None` or an empty-string
summary — written as a standalone function for stating theorems about the
shape of the assembled context. -/
def summary_block : Option String → List Message
  | some s =>
      if s = "" then []
      else
        [⟨"user", "[Conversation summary so far: " ++ s ++ "]"⟩,
         ⟨"model", "I recall our previous discussion. How can I help?"⟩]
  | none => []

end ConversationManager

open ConversationManager

/-- A service double whose calls always succeed with fixed texts. -/
def okSvc : Services String :=
  { primary := fun _ _ => Except.ok "reply"
    summarize := fun _ => Except.ok "sum" }

/-- A service double whose summarization call always fails. -/
def failSumSvc : Services String :=
  { primary := fun _ _ => Except.ok "reply"
    summarize := fun _ => Except.error "boom" }

/-- A service double whose primary completion call always fails. -/
def failPrimSvc : Services String :=
  { primary := fun _ _ => Except.error "down"
    summarize := fun _ => Except.ok "sum" }

/-- One user/model message pair per `(user_message, model_response)` entry,
flattened in order — the sequence of messages a run of `add_turn` calls
appends. -/
def flatTurns : List (String × String) → List Message
  | [] => []
  | (u, m) :: rest => ⟨"user", u⟩ :: ⟨"model", m⟩ :: flatTurns rest

/-- Iterating `add_turn` over a list of turn pairs, stopping at the first
escaping exception — the shape of the driver loop that feeds the manager
one exchange at a time. -/
def add_turn_seq {ε : Type} (svc : Services ε) (self : ConversationManager) :
    List (String × String) → Except (ε × ConversationManager) ConversationManager
  | [] => Except.ok self
  | (u, m) :: rest =>
      match add_turn svc self u m with
      | Except.error e => Except.error e
      | Except.ok s1 => add_turn_seq svc s1 rest

/-- A state with window 1 and threshold 2 holding three turns, on which the
compression trigger has just fired. -/
def C1state : ConversationManager :=
  ⟨"s", 1, 2, [], none,
   [⟨"user", "a"⟩, ⟨"model", "b"⟩, ⟨"user", "c"⟩, ⟨"model", "d"⟩,
    ⟨"user", "e"⟩, ⟨"model", "f"⟩], 3⟩

/-- A state with window 1 and threshold 1 holding one turn; adding one more
turn fires the compression trigger. -/
def C2state : ConversationManager :=
  ⟨"s", 1, 1, [], none, [⟨"user", "a"⟩, ⟨"model", "b"⟩], 1⟩

/-- A state whose summary is already set, holding one recent turn. -/
def C5state : ConversationManager :=
  ⟨"s", 1, 2, [], some "OLD", [⟨"user", "a"⟩, ⟨"model", "b"⟩], 1⟩

/-- A state whose summary is set to the empty string (falsy in Python),
holding two recent turns. -/
def C3state : ConversationManager :=
  ⟨"s", 3, 6, [], some "",
   [⟨"user", "a"⟩, ⟨"model", "b"⟩, ⟨"user", "c"⟩, ⟨"model", "d"⟩], 2⟩

/-- A state whose summary is set to the empty string (falsy in Python), with
window 1 and three recent turns so that `to_summarize` is non-empty. -/
def C5empty : ConversationManager :=
  ⟨"s", 1, 2, [], some "",
   [⟨"user", "a"⟩, ⟨"model", "b"⟩, ⟨"user", "c"⟩, ⟨"model", "d"⟩,
    ⟨"user", "e"⟩, ⟨"model", "f"⟩], 3⟩

@[simp] lemma build_context_snd (st : ConversationManager) (m : String) :
    (build_context st m).2 = st := rfl

@[simp] lemma appendTurn_summarize_threshold (s : ConversationManager)
    (u m : String) : (appendTurn s u m).summarize_threshold = s.summarize_threshold :=
  rfl

@[simp] lemma appendTurn_recent_turns (s : ConversationManager) (u m : String) :
    (appendTurn s u m).recent_turns =
      s.recent_turns ++ [⟨"user", u⟩, ⟨"model", m⟩] := rfl

@[simp] lemma appendTurn_summary (s : ConversationManager) (u m : String) :
    (appendTurn s u m).summary = s.summary := rfl

lemma stateOf_compress_fields {ε : Type} (svc : Services ε)
    (s : ConversationManager) :
    (stateOf (_compress svc s)).turn_count = s.turn_count
    ∧ (stateOf (_compress svc s)).full_history = s.full_history := by
  unfold _compress
  rcases h : svc.summarize (conversation_text s) with e | r <;> simp [stateOf]

lemma stateOf_add_turn_fields {ε : Type} (svc : Services ε)
    (s : ConversationManager) (u m : String) :
    (stateOf (add_turn svc s u m)).turn_count = s.turn_count + 1
    ∧ (stateOf (add_turn svc s u m)).full_history =
        s.full_history ++ [⟨"user", u⟩, ⟨"model", m⟩] := by
  simp only [add_turn]
  split
  · rw [(stateOf_compress_fields svc _).1, (stateOf_compress_fields svc _).2]
    exact ⟨rfl, rfl⟩
  · exact ⟨rfl, rfl⟩

lemma chat_primary_ok {ε : Type} (svc : Services ε) (st : ConversationManager)
    (m r : String)
    (h : svc.primary st.system_prompt (build_context st m).1 = Except.ok r) :
    chat svc st m =
      match add_turn svc st m r.trim with
      | Except.error e => Except.error e
      | Except.ok s1 => Except.ok (r.trim, s1) := by
  simp only [chat, build_context_snd]
  rw [h]

lemma chat_state_primary_ok {ε : Type} (svc : Services ε)
    (st : ConversationManager) (m r : String)
    (h : svc.primary st.system_prompt (build_context st m).1 = Except.ok r) :
    chat_state (chat svc st m) = stateOf (add_turn svc st m r.trim) := by
  rw [chat_primary_ok svc st m r h]
  rcases add_turn svc st m r.trim with ⟨e1, s1⟩ | s1 <;> rfl

/-- C3 counterexample: at a state whose summary is set to the empty string
and which holds two recent turns, `build_context` emits no synthetic
summary pair — the Python truthiness guard `if self.summary:` fails — so
the result has 5 messages, not the 7 the claim asserts for every set
summary. -/
theorem C3_counterexample :
    C3state.summary = some ""
    ∧ C3state.recent_turns.length = 4
    ∧ ((build_context C3state "new").1).length = 5 := by
  refine ⟨rfl, rfl, rfl⟩

/-- C3 amended: `build_context` returns, in order, the synthetic summary
exchange (when the summary passes Python's truthiness test: set and
non-empty), then `recent_turns` as stored (already flattened to user/model
messages in turn order), then the new user message; on a fresh state the
result is the single new message, and with a non-empty summary and two
recent turns the result has exactly 7 messages. -/
theorem C3_build_context_order (st : ConversationManager) (m : String)
    (hm : m ≠ "") :
    (build_context st m).1 =
      summary_block st.summary ++ st.recent_turns ++ [⟨"user", m⟩]
    ∧ (st.summary = none → st.recent_turns = [] →
        (build_context st m).1 = [⟨"user", m⟩])
    ∧ (∀ s, s ≠ "" → st.summary = some s → st.recent_turns.length = 4 →
        ((build_context st m).1).length = 7) := by
  refine ⟨?_, ?_, ?_⟩
  · cases h : st.summary with
    | none => simp [build_context, summary_block, h]
    | some s => by_cases hs : s = "" <;> simp [build_context, summary_block, h, hs]
  · intro h1 h2
    simp [build_context, h1, h2]
  · intro s hne hs hlen
    simp [build_context, hs, hne, hlen]

/-- Witness for C3 at the fresh state. -/
theorem C3_build_context_order_witness :
    ("hello" : String) ≠ ""
    ∧ (build_context (init "s") "hello").1 = [⟨"user", "hello"⟩] :=
  ⟨by decide, (C3_build_context_order (init "s") "hello" (by decide)).2.1 rfl rfl⟩

/-- C9: `build_context` is deterministic in the state and input, returns the
state unchanged (the method never assigns to `self`), and its result is
independent of the external completion service (the method never references
the client). -/
theorem C9_build_context_pure (st : ConversationManager) (m : String) :
    (build_context st m).2 = st
    ∧ (∀ st' m', st' = st → m' = m → build_context st' m' = build_context st m)
    ∧ (∀ (ε : Type) (svc svc' : Services ε),
        build_context_amb svc st m = build_context_amb svc' st m) :=
  ⟨rfl, fun _ _ h1 h2 => by rw [h1, h2], fun _ _ _ => rfl⟩

/-- Witness for C9 at a concrete state and input. -/
theorem C9_build_context_pure_witness :
    (build_context (init "s") "hi").2 = init "s" :=
  (C9_build_context_pure (init "s") "hi").1

/-- C7 counterexample: constructing with `summarize_threshold` equal to
`max_recent_turns` (both 3) does not fail — `__init__` performs no
validation — and the instance is fully usable: `build_context` and `chat`
work normally on it. -/
theorem C7_counterexample :
    init "s" 3 3 = ⟨"s", 3, 3, [], none, [], 0⟩
    ∧ (build_context (init "s" 3 3) "hi").1 = [⟨"user", "hi"⟩]
    ∧ (chat_state (chat okSvc (init "s" 3 3) "hi")).turn_count = 1 := by
  refine ⟨rfl, by decide, by decide⟩

/-- C7 amended: construction performs no validation at all — for every
configuration, including `recent_window_size <= 0`, `compression_threshold
<= 0`, or `compression_threshold <= recent_window_size`, `__init__` returns
a usable instance holding exactly the given values, and no
`InvalidConfiguration` error exists in the code. -/
theorem C7_no_validation (sp : String) (w th : Nat) :
    init sp w th = ⟨sp, w, th, [], none, [], 0⟩
    ∧ (build_context (init sp w th) "hi").1 = [⟨"user", "hi"⟩] :=
  ⟨rfl, by simp [init, build_context]⟩

/-- C8 counterexample: `chat` with an empty `new_message` on a fresh manager
does not raise — there is no `EmptyInput` check — it calls the service,
records the turn, and leaves `turn_count` at 1, not 0. -/
theorem C8_counterexample :
    chat okSvc (init "s" 3 5) "" =
      Except.ok ("reply".trim,
        ⟨"s", 3, 5, [⟨"user", ""⟩, ⟨"model", "reply".trim⟩], none,
         [⟨"user", ""⟩, ⟨"model", "reply".trim⟩], 1⟩) := rfl

/-- C8 amended: neither `chat` nor `build_context` checks for an empty
`new_message`: `build_context ""` returns the usual context ending in an
empty user message and leaves the state unchanged, and a `chat ""` whose
service calls succeed records the turn, leaving `turn_count` at 1 on a
fresh manager (for every configuration). -/
theorem C8_no_empty_check (st : ConversationManager) (sp : String) (w th : Nat) :
    (build_context st "").2 = st
    ∧ (build_context st "").1 =
        summary_block st.summary ++ st.recent_turns ++ [⟨"user", ""⟩]
    ∧ (chat_state (chat okSvc (init sp w th) "")).turn_count = 1 := by
  refine ⟨rfl, ?_, ?_⟩
  · cases h : st.summary with
    | none => simp [build_context, summary_block, h]
    | some s => by_cases hs : s = "" <;> simp [build_context, summary_block, h, hs]
  · rw [chat_state_primary_ok okSvc (init sp w th) "" "reply" rfl,
      (stateOf_add_turn_fields okSvc (init sp w th) "" ("reply".trim)).1]
    rfl

lemma to_keep_length (s : ConversationManager)
    (hk : s.max_recent_turns * 2 ≠ 0)
    (hle : s.max_recent_turns * 2 ≤ s.recent_turns.length) :
    (to_keep s).length = s.max_recent_turns * 2 := by
  unfold to_keep sliceLast
  rw [if_neg hk, List.length_drop]
  omega

lemma to_summarize_append_to_keep (s : ConversationManager)
    (hk : s.max_recent_turns * 2 ≠ 0) :
    to_summarize s ++ to_keep s = s.recent_turns := by
  unfold to_summarize to_keep sliceDropLast sliceLast
  rw [if_neg hk, if_neg hk]
  exact List.take_append_drop _ _

lemma to_summarize_length (s : ConversationManager)
    (hk : s.max_recent_turns * 2 ≠ 0)
    (hle : s.max_recent_turns * 2 ≤ s.recent_turns.length) :
    (to_summarize s).length = s.recent_turns.length - s.max_recent_turns * 2 := by
  unfold to_summarize sliceDropLast
  rw [if_neg hk, List.length_take]
  omega

/-- C1: when the trigger precondition holds (turn count in `recent_turns`
exceeds the threshold) under the spec's configuration constraints, a
successful `_compress` leaves exactly `max_recent_turns` turns in
`recent_turns`, and the dropped elements are a front segment whose turn
count is the pre-compression turn count minus `max_recent_turns`. -/
theorem C1_compress_postcondition {ε : Type} (svc : Services ε)
    (st : ConversationManager) (out : String)
    (hw : 0 < st.max_recent_turns)
    (hwt : st.max_recent_turns < st.summarize_threshold)
    (htrig : st.recent_turns.length / 2 > st.summarize_threshold)
    (hsvc : svc.summarize (conversation_text st) = Except.ok out) :
    ∃ st', _compress svc st = Except.ok st'
      ∧ st'.recent_turns.length = 2 * st.max_recent_turns
      ∧ st'.recent_turns.length / 2 = st.max_recent_turns
      ∧ st.recent_turns = to_summarize st ++ st'.recent_turns
      ∧ (to_summarize st).length / 2 =
          st.recent_turns.length / 2 - st.max_recent_turns := by
  have hk : st.max_recent_turns * 2 ≠ 0 := by omega
  have hle : st.max_recent_turns * 2 ≤ st.recent_turns.length := by omega
  refine ⟨{ st with summary := some out.trim, recent_turns := to_keep st },
    ?_, ?_, ?_, ?_, ?_⟩
  · unfold _compress
    rw [hsvc]
  · show (to_keep st).length = 2 * st.max_recent_turns
    rw [to_keep_length st hk hle]
    omega
  · show (to_keep st).length / 2 = st.max_recent_turns
    rw [to_keep_length st hk hle]
    omega
  · exact (to_summarize_append_to_keep st hk).symm
  · rw [to_summarize_length st hk hle]
    omega

/-- Witness for C1: compressing `C1state` (three turns, window 1,
threshold 2) leaves exactly two messages, i.e. one turn, in the window. -/
theorem C1_compress_postcondition_witness :
    (stateOf (_compress okSvc C1state)).recent_turns.length = 2 := by
  obtain ⟨st', h1, h2, -, -, -⟩ :=
    C1_compress_postcondition okSvc C1state "sum"
      (by decide) (by decide) (by decide) rfl
  rw [h1]
  show st'.recent_turns.length = 2
  rw [h2]
  rfl

/-- C2: if the summarization call inside `_compress` fails, the failure
escapes `add_turn`, and the escaping state has `recent_turns` equal to the
pre-call content plus the just-appended turn, with `summary` unchanged — no
partial truncation. -/
theorem C2_compress_failure_atomic {ε : Type} (svc : Services ε)
    (st : ConversationManager) (u m : String) (e : ε)
    (htrig : (appendTurn st u m).recent_turns.length / 2 > st.summarize_threshold)
    (hfail : svc.summarize (conversation_text (appendTurn st u m)) =
      Except.error e) :
    add_turn svc st u m = Except.error (e, appendTurn st u m)
    ∧ (stateOf (add_turn svc st u m)).recent_turns =
        st.recent_turns ++ [⟨"user", u⟩, ⟨"model", m⟩]
    ∧ (stateOf (add_turn svc st u m)).summary = st.summary := by
  have h1 : add_turn svc st u m = Except.error (e, appendTurn st u m) := by
    simp only [add_turn, appendTurn_summarize_threshold]
    rw [if_pos htrig]
    unfold _compress
    rw [hfail]
  refine ⟨h1, ?_, ?_⟩ <;> rw [h1] <;> rfl

/-- Witness for C2 at a concrete state where adding one turn fires the
trigger and the summarization double fails. -/
theorem C2_compress_failure_atomic_witness :
    add_turn failSumSvc C2state "c" "d" =
      Except.error ("boom", appendTurn C2state "c" "d") :=
  (C2_compress_failure_atomic failSumSvc C2state "c" "d" "boom"
    (by decide) rfl).1

/-- C4: if the primary completion call inside `chat` fails, the failure
escapes with the state exactly as it was — `add_turn` is never reached, so
`recent_turns`, `summary` and `turn_count` are untouched. -/
theorem C4_chat_primary_failure {ε : Type} (svc : Services ε)
    (st : ConversationManager) (m : String) (e : ε)
    (hfail : svc.primary st.system_prompt (build_context st m).1 =
      Except.error e) :
    chat svc st m = Except.error (e, st)
    ∧ (chat_state (chat svc st m)).recent_turns = st.recent_turns
    ∧ (chat_state (chat svc st m)).summary = st.summary
    ∧ (chat_state (chat svc st m)).turn_count = st.turn_count := by
  have h1 : chat svc st m = Except.error (e, st) := by
    simp only [chat, build_context_snd]
    rw [hfail]
  refine ⟨h1, ?_, ?_, ?_⟩ <;> rw [h1] <;> rfl

/-- Witness for C4 with an always-failing primary completion double. -/
theorem C4_chat_primary_failure_witness :
    chat failPrimSvc (init "s") "hi" = Except.error ("down", init "s") :=
  (C4_chat_primary_failure failPrimSvc (init "s") "hi" "down" rfl).1

/-- C5 counterexample: at a state whose summary is set to the empty string,
the truthiness guard `if self.summary:` fails, so the transcript handed to
the summarization call carries no "Previous summary" prefix at all —
refuting the claimed exact transcript shape for every set summary. -/
theorem C5_counterexample :
    C5empty.summary = some ""
    ∧ conversation_text C5empty = renderMessages (to_summarize C5empty)
    ∧ conversation_text C5empty ≠
        "Previous summary: " ++ "" ++ "\n\n"
          ++ renderMessages (to_summarize C5empty) := by
  refine ⟨rfl, rfl, by decide⟩

/-- C5 amended: when the summary is already set to a non-empty string (so
Python's truthiness test passes), the transcript `_compress` hands to the
summarization call is exactly the "Previous summary" prefix carrying the
old summary text, followed by the rendered folded turns — so the old
summary occurs in the new summary's generation input, and `_compress`
depends on the service only through its answer on that transcript. -/
theorem C5_summary_folded_in (st : ConversationManager) (s : String)
    (hs : st.summary = some s) (hne : s ≠ "") :
    conversation_text st =
      "Previous summary: " ++ s ++ "\n\n" ++ renderMessages (to_summarize st)
    ∧ (∃ pre post : String, conversation_text st = pre ++ (s ++ post))
    ∧ (∀ (ε : Type) (svc svc' : Services ε),
        svc.summarize (conversation_text st) =
          svc'.summarize (conversation_text st) →
        _compress svc st = _compress svc' st) := by
  have h1 : conversation_text st =
      "Previous summary: " ++ s ++ "\n\n" ++ renderMessages (to_summarize st) := by
    simp only [conversation_text, hs]
    rw [if_neg hne]
  refine ⟨h1, ⟨"Previous summary: ",
    "\n\n" ++ renderMessages (to_summarize st), ?_⟩, ?_⟩
  · rw [h1]
    apply String.ext
    simp [String.data_append, List.append_assoc]
  · intro ε svc svc' h
    unfold _compress
    rw [h]

/-- Witness for C5 at a state whose summary is `"OLD"`. -/
theorem C5_summary_folded_in_witness :
    conversation_text C5state =
      "Previous summary: " ++ "OLD" ++ "\n\n"
        ++ renderMessages (to_summarize C5state) :=
  (C5_summary_folded_in C5state "OLD" rfl (by decide)).1

lemma add_turn_seq_no_trigger {ε : Type} (svc : Services ε) :
    ∀ (l : List (String × String)) (s : ConversationManager),
    s.recent_turns.length / 2 + l.length ≤ s.summarize_threshold →
    add_turn_seq svc s l =
      Except.ok { s with
        full_history := s.full_history ++ flatTurns l
        recent_turns := s.recent_turns ++ flatTurns l
        turn_count := s.turn_count + l.length } := by
  intro l
  induction l with
  | nil =>
      intro s h
      simp [add_turn_seq, flatTurns]
  | cons p rest ih =>
      intro s h
      obtain ⟨u, m⟩ := p
      have hcond : ¬ ((appendTurn s u m).recent_turns.length / 2 >
          (appendTurn s u m).summarize_threshold) := by
        simp only [appendTurn_recent_turns, appendTurn_summarize_threshold,
          List.length_append, List.length_cons, List.length_nil]
        simp only [List.length_cons] at h
        omega
      simp only [add_turn_seq, add_turn]
      rw [if_neg hcond]
      show add_turn_seq svc (appendTurn s u m) rest =
        Except.ok { s with
          full_history := s.full_history ++ flatTurns ((u, m) :: rest)
          recent_turns := s.recent_turns ++ flatTurns ((u, m) :: rest)
          turn_count := s.turn_count + ((u, m) :: rest).length }
      rw [ih (appendTurn s u m) ?_]
      · simp only [appendTurn, flatTurns, List.append_assoc, List.cons_append,
          List.nil_append, List.length_cons, Except.ok.injEq,
          ConversationManager.mk.injEq, true_and, and_true, eq_self_iff_true]
        omega
      · simp only [appendTurn_recent_turns, appendTurn_summarize_threshold,
          List.length_append, List.length_cons, List.length_nil]
        simp only [List.length_cons] at h
        omega

/-- C6: iterating `add_turn` from a fresh manager with too few turns to fire
the trigger leaves `recent_turns` equal to the exact flattened sequence of
turns added, in order, keeps `summary` at `None`, and raises `turn_count`
to the number of calls made (with `full_history` matching as well). -/
theorem C6_append_only_until_threshold {ε : Type} (svc : Services ε)
    (sp : String) (w th : Nat) (pairs : List (String × String))
    (hlen : pairs.length ≤ th) :
    add_turn_seq svc (init sp w th) pairs =
      Except.ok ⟨sp, w, th, flatTurns pairs, none, flatTurns pairs,
        pairs.length⟩ := by
  have h := add_turn_seq_no_trigger svc pairs (init sp w th)
    (by simp only [init]; simpa using hlen)
  simpa [init] using h

/-- Witness for C6: two turns added below a threshold of 6. -/
theorem C6_append_only_until_threshold_witness :
    add_turn_seq okSvc (init "s" 3 6) [("a", "b"), ("c", "d")] =
      Except.ok ⟨"s", 3, 6, flatTurns [("a", "b"), ("c", "d")], none,
        flatTurns [("a", "b"), ("c", "d")], 2⟩ :=
  C6_append_only_until_threshold okSvc "s" 3 6 [("a", "b"), ("c", "d")]
    (by decide)

/-- C10: `full_history` is a record the spec never mentions: `add_turn`
always appends the turn's two messages to it (even when compression fails),
`_compress` never touches it, `chat` only ever extends it, and each
operation preserves the invariant that its length is exactly twice
`turn_count` — so it grows without bound regardless of compression. -/
theorem C10_full_history_grows {ε : Type} (svc : Services ε)
    (st : ConversationManager) (u m : String)
    (hinv : st.full_history.length = 2 * st.turn_count) :
    (stateOf (add_turn svc st u m)).full_history =
        st.full_history ++ [⟨"user", u⟩, ⟨"model", m⟩]
    ∧ (stateOf (add_turn svc st u m)).full_history.length =
        2 * (stateOf (add_turn svc st u m)).turn_count
    ∧ (stateOf (_compress svc st)).full_history = st.full_history
    ∧ (stateOf (_compress svc st)).full_history.length =
        2 * (stateOf (_compress svc st)).turn_count
    ∧ (∃ ext, (chat_state (chat svc st u)).full_history =
        st.full_history ++ ext)
    ∧ (chat_state (chat svc st u)).full_history.length =
        2 * (chat_state (chat svc st u)).turn_count := by
  obtain ⟨hat1, hat2⟩ := stateOf_add_turn_fields svc st u m
  obtain ⟨hc1, hc2⟩ := stateOf_compress_fields svc st
  refine ⟨hat2, ?_, hc2, ?_, ?_⟩
  · rw [hat2, hat1, List.length_append, hinv]
    simp
    omega
  · rw [hc2, hc1, hinv]
  · rcases hp : svc.primary st.system_prompt (build_context st u).1 with e | r
    · have hch : chat svc st u = Except.error (e, st) := by
        simp only [chat, build_context_snd]
        rw [hp]
      rw [hch]
      exact ⟨⟨[], by simp [chat_state]⟩, by simp [chat_state, hinv]⟩
    · have hch := chat_state_primary_ok svc st u r hp
      obtain ⟨ha1, ha2⟩ := stateOf_add_turn_fields svc st u r.trim
      rw [hch]
      refine ⟨⟨[⟨"user", u⟩, ⟨"model", r.trim⟩], ha2⟩, ?_⟩
      rw [ha2, ha1, List.length_append, hinv]
      simp
      omega

/-- Witness for C10 applied to a fresh manager. -/
theorem C10_full_history_grows_witness :
    (stateOf (add_turn okSvc (init "s") "a" "b")).full_history =
      (init "s").full_history ++ [⟨"user", "a"⟩, ⟨"model", "b"⟩] :=
  (C10_full_history_grows okSvc (init "s") "a" "b" rfl).1
